import Mathlib

/-!
Verification of the privileged-session core of the steamos-mount repository.

The development shallow-embeds the protocol codec (`packages/core/src/protocol.rs`),
the daemon request loop (`apps/cli/src/daemon.rs`) and the client session /
execution-context logic (`packages/core/src/executor.rs`) as executable Lean
definitions, and proves the specified properties about them.

Machine integers are modelled as `Nat`/`Int` with explicit reductions modulo
2^32 where the source wraps; byte strings are `List Nat` with elements below 256.
OS side effects (file writes, process execution) are modelled as explicit
oracle inputs, so daemon handlers and context operations are pure functions of
the oracle outcome.
-/

namespace SteamosMount

/-! ## Bytes, UTF-8 and hex encoding -/

/-- Truncation to 32 bits, the wrap-around of `u32` arithmetic. -/
def w32 (n : Nat) : Nat := n % 4294967296

/-- UTF-8 encoding of a single Unicode code point. -/
def utf8Bytes (n : Nat) : List Nat :=
  if n < 128 then [n]
  else if n < 2048 then [192 ||| (n >>> 6), 128 ||| (n &&& 63)]
  else if n < 65536 then
    [224 ||| (n >>> 12), 128 ||| ((n >>> 6) &&& 63), 128 ||| (n &&& 63)]
  else
    [240 ||| (n >>> 18), 128 ||| ((n >>> 12) &&& 63),
     128 ||| ((n >>> 6) &&& 63), 128 ||| (n &&& 63)]

/-- The UTF-8 byte sequence of a string, as the Rust `str::as_bytes`. -/
def strBytes (s : String) : List Nat :=
  (s.data.map (fun c => utf8Bytes c.toNat)).flatten

/-- Lower-case hex digit for a value below 16, as the hex crate emits. -/
def hexDigit (n : Nat) : Char :=
  if n < 10 then Char.ofNat (48 + n) else Char.ofNat (87 + n)

/-- The two hex characters of one byte. -/
def byteHexChars (b : Nat) : List Char := [hexDigit (b / 16 % 16), hexDigit (b % 16)]

/-- Hex encoding of a byte list, as `hex::encode`. -/
def hexEncode (bs : List Nat) : String := String.mk ((bs.map byteHexChars).flatten)

/-- Value of one hex character, accepting both cases, as `hex::decode`. -/
def hexVal (c : Char) : Option Nat :=
  let n := c.toNat
  if 48 ≤ n ∧ n ≤ 57 then some (n - 48)
  else if 97 ≤ n ∧ n ≤ 102 then some (n - 87)
  else if 65 ≤ n ∧ n ≤ 70 then some (n - 55)
  else none

/-- Hex decoding of a character list; rejects odd length and non-hex digits,
as `hex::decode`. -/
def hexDecodeChars : List Char → Except String (List Nat)
  | [] => .ok []
  | [_] => .error "Odd number of digits"
  | c1 :: c2 :: rest =>
    match hexVal c1, hexVal c2 with
    | some h, some l =>
      match hexDecodeChars rest with
      | .ok bs => .ok ((h * 16 + l) :: bs)
      | .error e => .error e
    | _, _ => .error "Invalid character"

/-- Hex decoding of a string, as `hex::decode`. -/
def hexDecode (s : String) : Except String (List Nat) := hexDecodeChars s.data

/-! ## SHA-256 (FIPS 180-4), the hash underlying the `hmac`/`sha2` crates -/

/-- Right rotation of a 32-bit word. -/
def rotr32 (k x : Nat) : Nat := w32 ((x >>> k) ||| (x <<< (32 - k)))

def chf (x y z : Nat) : Nat := (x &&& y) ^^^ ((4294967295 ^^^ x) &&& z)

def majf (x y z : Nat) : Nat := (x &&& y) ^^^ (x &&& z) ^^^ (y &&& z)

def bsig0 (x : Nat) : Nat := rotr32 2 x ^^^ rotr32 13 x ^^^ rotr32 22 x

def bsig1 (x : Nat) : Nat := rotr32 6 x ^^^ rotr32 11 x ^^^ rotr32 25 x

def ssig0 (x : Nat) : Nat := rotr32 7 x ^^^ rotr32 18 x ^^^ (x >>> 3)

def ssig1 (x : Nat) : Nat := rotr32 17 x ^^^ rotr32 19 x ^^^ (x >>> 10)

/-- The 64 SHA-256 round constants (FIPS 180-4, section 4.2.2), in decimal. -/
def shaK : List Nat :=
  [1116352408, 1899447441, 3049323471, 3921009573, 961987163,
   1508970993, 2453635748, 2870763221, 3624381080, 310598401,
   607225278, 1426881987, 1925078388, 2162078206, 2614888103,
   3248222580, 3835390401, 4022224774, 264347078, 604807628,
   770255983, 1249150122, 1555081692, 1996064986, 2554220882,
   2821834349, 2952996808, 3210313671, 3336571891, 3584528711,
   113926993, 338241895, 666307205, 773529912, 1294757372,
   1396182291, 1695183700, 1986661051, 2177026350, 2456956037,
   2730485921, 2820302411, 3259730800, 3345764771, 3516065817,
   3600352804, 4094571909, 275423344, 430227734, 506948616,
   659060556, 883997877, 958139571, 1322822218, 1537002063,
   1747873779, 1955562222, 2024104815, 2227730452, 2361852424,
   2428436474, 2756734187, 3204031479, 3329325298]

/-- Working state of the compression function: eight 32-bit words. -/
structure Hash8 where
  a : Nat
  b : Nat
  c : Nat
  d : Nat
  e : Nat
  f : Nat
  g : Nat
  h : Nat

/-- Initial SHA-256 hash value (FIPS 180-4, section 5.3.3), in decimal. -/
def shaInit : Hash8 :=
  ⟨1779033703, 3144134277, 1013904242, 2773480762,
   1359893119, 2600822924, 528734635, 1541459225⟩

/-- Big-endian 32-bit words from a byte list (four bytes per word). -/
def bytesToWords : List Nat → List Nat
  | b0 :: b1 :: b2 :: b3 :: rest =>
    (((b0 * 256 + b1) * 256 + b2) * 256 + b3) :: bytesToWords rest
  | _ => []

/-- Message-schedule extension: appends `fuel` further words. -/
def extendSchedule : Nat → List Nat → List Nat
  | 0, ws => ws
  | fuel + 1, ws =>
    let t := ws.length
    let wt := w32 (ssig1 (ws.getD (t - 2) 0) + ws.getD (t - 7) 0 +
                   ssig0 (ws.getD (t - 15) 0) + ws.getD (t - 16) 0)
    extendSchedule fuel (ws ++ [wt])

/-- One round of the compression function. -/
def compressStep (st : Hash8) (kw : Nat × Nat) : Hash8 :=
  let t1 := w32 (st.h + bsig1 st.e + chf st.e st.f st.g + kw.1 + kw.2)
  let t2 := w32 (bsig0 st.a + majf st.a st.b st.c)
  ⟨w32 (t1 + t2), st.a, st.b, st.c, w32 (st.d + t1), st.e, st.f, st.g⟩

/-- Compression of one 64-byte block. -/
def compressBlock (st : Hash8) (block : List Nat) : Hash8 :=
  let ws := extendSchedule 48 (bytesToWords block)
  let fin := (shaK.zip ws).foldl compressStep st
  ⟨w32 (st.a + fin.a), w32 (st.b + fin.b), w32 (st.c + fin.c), w32 (st.d + fin.d),
   w32 (st.e + fin.e), w32 (st.f + fin.f), w32 (st.g + fin.g), w32 (st.h + fin.h)⟩

/-- Big-endian 8-byte encoding of a 64-bit value. -/
def u64BeBytes (n : Nat) : List Nat :=
  [(n >>> 56) &&& 255, (n >>> 48) &&& 255, (n >>> 40) &&& 255, (n >>> 32) &&& 255,
   (n >>> 24) &&& 255, (n >>> 16) &&& 255, (n >>> 8) &&& 255, n &&& 255]

/-- SHA-256 padding: append `0x80`, zeros, and the 64-bit bit length. -/
def sha256Pad (msg : List Nat) : List Nat :=
  let l := msg.length
  let z := (64 - ((l + 9) % 64)) % 64
  msg ++ [128] ++ List.replicate z 0 ++ u64BeBytes (8 * l)

/-- Split a list into chunks of 64 bytes (fuel-driven structural recursion). -/
def chunk64 : Nat → List Nat → List (List Nat)
  | 0, _ => []
  | _, [] => []
  | fuel + 1, l => l.take 64 :: chunk64 fuel (l.drop 64)

/-- Big-endian serialization of a 32-bit word. -/
def u32BeBytes (n : Nat) : List Nat :=
  [(n >>> 24) &&& 255, (n >>> 16) &&& 255, (n >>> 8) &&& 255, n &&& 255]

/-- Digest bytes of a final hash state. -/
def hash8Bytes (st : Hash8) : List Nat :=
  u32BeBytes st.a ++ u32BeBytes st.b ++ u32BeBytes st.c ++ u32BeBytes st.d ++
  u32BeBytes st.e ++ u32BeBytes st.f ++ u32BeBytes st.g ++ u32BeBytes st.h

/-- SHA-256 of a byte list. -/
def sha256 (msg : List Nat) : List Nat :=
  let padded := sha256Pad msg
  hash8Bytes ((chunk64 padded.length padded).foldl compressBlock shaInit)

/-- HMAC-SHA256 (RFC 2104): the key is hashed when longer than the 64-byte
block, then zero-padded; defined for a key of every length, as the `hmac`
crate function `new_from_slice` which never fails. -/
def hmacSha256 (key msg : List Nat) : List Nat :=
  let k0 := if 64 < key.length then sha256 key else key
  let kp := k0 ++ List.replicate (64 - k0.length) 0
  sha256 ((kp.map (fun b => b ^^^ 92)) ++
          sha256 ((kp.map (fun b => b ^^^ 54)) ++ msg))

/-! ## Protocol signing primitives (`packages/core/src/protocol.rs`) -/

/-- Little-endian 8-byte encoding of a request id, as `u64::to_le_bytes`. -/
def u64LeBytes (n : Nat) : List Nat :=
  [n &&& 255, (n >>> 8) &&& 255, (n >>> 16) &&& 255, (n >>> 24) &&& 255,
   (n >>> 32) &&& 255, (n >>> 40) &&& 255, (n >>> 48) &&& 255, (n >>> 56) &&& 255]

/-- Source `compute_hmac`: HMAC-SHA256 over `id.to_le_bytes() || payload`, hex encoded. -/
def compute_hmac (secret : List Nat) (id : Nat) (payload : String) : String :=
  hexEncode (hmacSha256 secret (u64LeBytes id ++ strBytes payload))

/-- Source `constant_time_eq`: length check first, then a fold of or-ed xors over the
zipped bytes, compared with zero. -/
def constant_time_eq (a b : String) : Bool :=
  if (strBytes a).length ≠ (strBytes b).length then false
  else
    (((strBytes a).zip (strBytes b)).foldl
      (fun acc p => acc ||| (p.1 ^^^ p.2)) 0) == 0

/-- Source `verify_hmac`: recompute and compare in constant time. -/
def verify_hmac (secret : List Nat) (id : Nat) (payload signature : String) : Bool :=
  constant_time_eq (compute_hmac secret id payload) signature

/-! ## JSON values and the serde encoding of the protocol messages

Messages travel as one JSON object per line. The data-binding layer that serde
derives for the message structs is embedded here: encoding produces the JSON
value serde would serialize, decoding mirrors the serde field lookup (unknown
fields ignored, `#[serde(default)]` fields optional, the `cmd` tag selecting
the command variant). -/

inductive Json where
  | null : Json
  | bool (b : Bool) : Json
  | num (n : Int) : Json
  | str (s : String) : Json
  | arr (xs : List Json) : Json
  | obj (fields : List (String × Json)) : Json

/-- JSON string escaping as `serde_json` performs it. -/
def escapeChar (c : Char) : String :=
  if c = '"' then "\\\""
  else if c = '\\' then "\\\\"
  else if c.toNat = 8 then "\\b"
  else if c.toNat = 9 then "\\t"
  else if c.toNat = 10 then "\\n"
  else if c.toNat = 12 then "\\f"
  else if c.toNat = 13 then "\\r"
  else if c.toNat < 32 then
    "\\u00" ++ String.mk [hexDigit (c.toNat / 16), hexDigit (c.toNat % 16)]
  else String.singleton c

def renderStr (s : String) : String :=
  "\"" ++ String.join (s.data.map escapeChar) ++ "\""

mutual

/-- Compact JSON rendering, as `serde_json::to_string`. -/
def renderJson : Json → String
  | .null => "null"
  | .bool b => cond b "true" "false"
  | .num n => toString n
  | .str s => renderStr s
  | .arr xs => "[" ++ renderArr xs ++ "]"
  | .obj fs => "\x7b" ++ renderObj fs ++ "\x7d"

def renderArr : List Json → String
  | [] => ""
  | [x] => renderJson x
  | x :: y :: rest => renderJson x ++ "," ++ renderArr (y :: rest)

def renderObj : List (String × Json) → String
  | [] => ""
  | [(k, v)] => renderStr k ++ ":" ++ renderJson v
  | (k, v) :: p :: rest => renderStr k ++ ":" ++ renderJson v ++ "," ++ renderObj (p :: rest)

end

/-! ### Protocol message types (`packages/core/src/protocol.rs`) -/

/-- Source `DaemonCommand`: the closed set of five operations. -/
inductive DaemonCommand where
  | exec (program : String) (args : List String)
  | writeFile (path : String) (content : String)
  | copyFile (src : String) (dst : String)
  | mkdirP (path : String)
  | shutdown
deriving DecidableEq

/-- Source `DaemonRequest`: id, signature and the flattened command. -/
structure DaemonRequest where
  id : Nat
  hmac : String
  cmd : DaemonCommand
deriving DecidableEq

/-- Source `DaemonResponse`. -/
structure DaemonResponse where
  id : Nat
  success : Bool
  exit_code : Int
  stdout : String
  stderr : String
  error : Option String
deriving DecidableEq

/-- Source `DaemonHandshake`. -/
structure DaemonHandshake where
  secret : String
deriving DecidableEq

/-- The fields serde emits for a command: the `cmd` tag first, then the
own fields of the variant, with `rename_all = "snake_case"` tag values. -/
def commandFields : DaemonCommand → List (String × Json)
  | .exec program args =>
    [("cmd", .str "exec"), ("program", .str program), ("args", .arr (args.map Json.str))]
  | .writeFile path content =>
    [("cmd", .str "write_file"), ("path", .str path), ("content", .str content)]
  | .copyFile src dst =>
    [("cmd", .str "copy_file"), ("src", .str src), ("dst", .str dst)]
  | .mkdirP path => [("cmd", .str "mkdir_p"), ("path", .str path)]
  | .shutdown => [("cmd", .str "shutdown")]

/-- Serialization of a bare command, the payload signed by `compute_hmac`. -/
def encodeCommand (c : DaemonCommand) : Json := .obj (commandFields c)

/-- Serialization of a request: `id`, `hmac`, then the flattened command. -/
def encodeRequest (r : DaemonRequest) : Json :=
  .obj ([("id", .num r.id), ("hmac", .str r.hmac)] ++ commandFields r.cmd)

/-- Serialization of a response; a `none` error serializes as JSON null. -/
def encodeResponse (r : DaemonResponse) : Json :=
  .obj [("id", .num r.id), ("success", .bool r.success), ("exit_code", .num r.exit_code),
        ("stdout", .str r.stdout), ("stderr", .str r.stderr),
        ("error", match r.error with | some e => .str e | none => .null)]

/-- First-match field lookup in a JSON object, as the serde deserializer sees
the fields of an object with distinct keys. -/
def jLookup (fs : List (String × Json)) (k : String) : Option Json :=
  match fs with
  | [] => none
  | (k', v) :: rest => if k' = k then some v else jLookup rest k

def asStr : Json → Option String
  | .str s => some s
  | _ => none

def asBool : Json → Option Bool
  | .bool b => some b
  | _ => none

def asNat : Json → Option Nat
  | .num n => if 0 ≤ n then some n.toNat else none
  | _ => none

def asInt : Json → Option Int
  | .num n => some n
  | _ => none

/-- Decode each element of a JSON sequence as a string. -/
def strListOf : List Json → Option (List String)
  | [] => some []
  | j :: rest =>
    match asStr j, strListOf rest with
    | some s, some ss => some (s :: ss)
    | _, _ => none

def asStrList : Json → Option (List String)
  | .arr xs => strListOf xs
  | _ => none

/-- Deserialization of the command portion of an object: dispatch on the
`cmd` tag, then read the fields of the variant; an unknown tag is rejected. -/
def decodeCommand (fs : List (String × Json)) : Option DaemonCommand := do
  let tag ← jLookup fs "cmd" >>= asStr
  match tag with
  | "exec" => do
    let program ← jLookup fs "program" >>= asStr
    let args ← jLookup fs "args" >>= asStrList
    some (.exec program args)
  | "write_file" => do
    let path ← jLookup fs "path" >>= asStr
    let content ← jLookup fs "content" >>= asStr
    some (.writeFile path content)
  | "copy_file" => do
    let src ← jLookup fs "src" >>= asStr
    let dst ← jLookup fs "dst" >>= asStr
    some (.copyFile src dst)
  | "mkdir_p" => do
    let path ← jLookup fs "path" >>= asStr
    some (.mkdirP path)
  | "shutdown" => some .shutdown
  | _ => none

/-- Deserialization of a request. -/
def decodeRequest : Json → Option DaemonRequest
  | .obj fs => do
    let id ← jLookup fs "id" >>= asNat
    let hmac ← jLookup fs "hmac" >>= asStr
    let cmd ← decodeCommand fs
    some ⟨id, hmac, cmd⟩
  | _ => none

/-- Deserialization of a response; `exit_code`, `stdout`, `stderr` and `error`
carry `#[serde(default)]`, so a missing field takes the default and a `null`
error is `none`. -/
def decodeResponse : Json → Option DaemonResponse
  | .obj fs => do
    let id ← jLookup fs "id" >>= asNat
    let success ← jLookup fs "success" >>= asBool
    let exit_code ← match jLookup fs "exit_code" with
      | none => some (0 : Int)
      | some v => asInt v
    let stdout ← match jLookup fs "stdout" with
      | none => some ""
      | some v => asStr v
    let stderr ← match jLookup fs "stderr" with
      | none => some ""
      | some v => asStr v
    let error ← match jLookup fs "error" with
      | none => some none
      | some .null => some none
      | some (.str e) => some (some e)
      | some _ => none
    some ⟨id, success, exit_code, stdout, stderr, error⟩
  | _ => none

/-! ## The daemon request loop (`apps/cli/src/daemon.rs`)

`run_daemon` reads lines, parses them, performs the replay check, the
signature check, and dispatches the command. The OS side of a dispatched
command (process execution, file system calls) is supplied by an `OsOracle`;
the classification of each read line (blank after trimming, unparseable, or a
parsed request) is the `InputLine` the step function consumes, matching the
three branches of the loop body. -/

/-- Result of running a child process: `status.code()` and captured streams. -/
structure ExecOutput where
  code : Option Int
  stdout : String
  stderr : String

/-- Outcomes of the OS calls the daemon handlers make. Errors carry the
display text of the underlying `io::Error`. -/
structure OsOracle where
  execCmd : String → List String → Except String ExecOutput
  fsWrite : String → String → Except String Unit
  fsCopy : String → String → Except String Nat
  fsCreateDirAll : String → Except String Unit

/-- Source `success_response`. -/
def success_response (id : Nat) : DaemonResponse :=
  ⟨id, true, 0, "", "", none⟩

/-- Source `error_response`: failure with exit code -1, empty streams, a message. -/
def error_response (id : Nat) (message : String) : DaemonResponse :=
  ⟨id, false, -1, "", "", some message⟩

/-- Source `handle_exec`: run the program; success is exit code 0; a missing exit
code (killed by signal) reports -1; a launch failure is an error response. -/
def handle_exec (os : OsOracle) (id : Nat) (program : String) (args : List String) :
    DaemonResponse :=
  match os.execCmd program args with
  | .ok output =>
    let exit_code := output.code.getD (-1)
    ⟨id, exit_code == 0, exit_code, output.stdout, output.stderr, none⟩
  | .error e => error_response id ("Failed to execute command: " ++ e)

/-- Source `handle_write_file`. -/
def handle_write_file (os : OsOracle) (id : Nat) (path content : String) :
    DaemonResponse :=
  match os.fsWrite path content with
  | .ok _ => success_response id
  | .error e => error_response id ("Failed to write file: " ++ e)

/-- Source `handle_copy_file`. -/
def handle_copy_file (os : OsOracle) (id : Nat) (src dst : String) :
    DaemonResponse :=
  match os.fsCopy src dst with
  | .ok _ => success_response id
  | .error e => error_response id ("Failed to copy file: " ++ e)

/-- Source `handle_mkdir_p`. -/
def handle_mkdir_p (os : OsOracle) (id : Nat) (path : String) : DaemonResponse :=
  match os.fsCreateDirAll path with
  | .ok _ => success_response id
  | .error e => error_response id ("Failed to create directory: " ++ e)

/-- Daemon state: the generated secret and the anti-replay counter,
initialized to 0 at startup. -/
structure DaemonState where
  secret : List Nat
  lastId : Nat
deriving DecidableEq

/-- One input line of the loop, after `serde_json::from_str`: blank after
trimming, unparseable, or a parsed request. -/
inductive InputLine where
  | blank
  | malformed
  | parsed (req : DaemonRequest)
deriving DecidableEq

/-- What one loop iteration writes: nothing, a diagnostic on stderr only, or
one response line on stdout. -/
inductive StepOut where
  | silent
  | stderrLog
  | response (r : DaemonResponse)
deriving DecidableEq

/-- Whether the loop continues or breaks (the `Shutdown` command). -/
inductive StepResult where
  | next (out : StepOut)
  | stop
deriving DecidableEq

/-- One iteration of the `run_daemon` loop body: blank lines are skipped,
unparseable lines log to stderr, then the replay check precedes the HMAC
check, and only a request passing both updates `last_id` and dispatches. -/
def daemonStep (os : OsOracle) (st : DaemonState) (inp : InputLine) :
    DaemonState × StepResult :=
  match inp with
  | .blank => (st, .next .silent)
  | .malformed => (st, .next .stderrLog)
  | .parsed req =>
    if req.id ≤ st.lastId then
      (st, .next (.response (error_response req.id
        ("Replay attack detected: ID " ++ toString req.id ++
         " <= last ID " ++ toString st.lastId))))
    else
      let cmd_json := renderJson (encodeCommand req.cmd)
      if !(verify_hmac st.secret req.id cmd_json req.hmac) then
        (st, .next (.response (error_response req.id "HMAC authentication failed")))
      else
        let st' : DaemonState := ⟨st.secret, req.id⟩
        match req.cmd with
        | .shutdown => (st', .stop)
        | .exec program args =>
          (st', .next (.response (handle_exec os req.id program args)))
        | .writeFile path content =>
          (st', .next (.response (handle_write_file os req.id path content)))
        | .copyFile src dst =>
          (st', .next (.response (handle_copy_file os req.id src dst)))
        | .mkdirP path =>
          (st', .next (.response (handle_mkdir_p os req.id path)))

/-- The daemon loop over a list of input lines: runs `daemonStep` until the
input ends or a step stops the loop, collecting what each iteration wrote. -/
def runDaemon (os : OsOracle) : DaemonState → List InputLine → DaemonState × List StepOut
  | st, [] => (st, [])
  | st, inp :: rest =>
    match daemonStep os st inp with
    | (st', .stop) => (st', [])
    | (st', .next out) =>
      let r := runDaemon os st' rest
      (r.1, out :: r.2)

/-! ## Client session and execution context (`packages/core/src/executor.rs`) -/

/-- The error variants of the core crate that the session and context paths
construct (`packages/core/src/error.rs`); io/source errors carry their display
text. -/
inductive CoreError where
  | AuthenticationCancelled
  | SessionCreation (message : String)
  | SessionCommunication (message : String)
  | CommandExit (command : String) (code : Int) (stderr : String)
  | CommandExecution (command : String) (source : String)
  | EscalationToolNotFound (tool : String)
  | FstabWrite (path : String) (source : String)
deriving DecidableEq

/-- Rust `char::is_whitespace`, the predicate behind `str::trim`. -/
def isRustWhitespace (c : Char) : Bool :=
  let n := c.toNat
  (9 ≤ n && n ≤ 13) || n = 32 || n = 133 || n = 160 || n = 5760 ||
  (8192 ≤ n && n ≤ 8202) || n = 8232 || n = 8233 || n = 8239 || n = 8287 || n = 12288

/-- Source `str::trim`: strip whitespace from both ends. -/
def strTrim (s : String) : String :=
  String.mk (((s.data.dropWhile isRustWhitespace).reverse.dropWhile
    isRustWhitespace).reverse)

/-- Rust `str::contains` with a string needle, over UTF-8 bytes:
prefix test used by the scan. -/
def bytesStartWith : List Nat → List Nat → Bool
  | _, [] => true
  | [], _ :: _ => false
  | a :: as, b :: bs => a == b && bytesStartWith as bs

/-- Substring occurrence scan over byte lists. -/
def bytesContain (needle : List Nat) : List Nat → Bool
  | [] => needle.isEmpty
  | h :: t => bytesStartWith (h :: t) needle || bytesContain needle t

/-- Rust `str::contains`. -/
def strContains (hay needle : String) : Bool :=
  bytesContain (strBytes needle) (strBytes hay)

/-- Source `PrivilegedSession::create_signed_request`: serialize the command, sign
`(id, cmd_json)` with the stored secret. -/
def create_signed_request (secret : List Nat) (id : Nat) (cmd : DaemonCommand) :
    DaemonRequest :=
  let cmd_json := renderJson (encodeCommand cmd)
  ⟨id, compute_hmac secret id cmd_json, cmd⟩

/-- The authentication-error classification at the end of
`PrivilegedSession::send_request`: a failure response whose error text
contains "authentication" or "HMAC" becomes a dedicated security error;
every other response is returned. -/
def send_request_auth_check (response : DaemonResponse) :
    Except CoreError DaemonResponse :=
  match response.error with
  | some err =>
    if !response.success && (strContains err "authentication" || strContains err "HMAC") then
      .error (.SessionCommunication ("Security verification failed: " ++ err))
    else .ok response
  | none => .ok response

/-- The observable behaviour of a spawned daemon child during session
construction: the first exit poll, the captured stderr text, stdout
availability, the handshake line read, the second exit poll, and the
`serde_json::from_str` outcome on the trimmed handshake line. -/
structure ChildObservation where
  tryWaitFirst : Except CoreError (Option Int)
  stderrText : String
  stdoutAvail : Bool
  readHandshakeLine : Except String String
  tryWaitSecond : Except CoreError (Option Int)
  handshakeParse : Except String DaemonHandshake

/-- The state a freshly constructed `PrivilegedSession` holds. -/
structure SessionInit where
  secret : List Nat
  request_id : Nat
deriving DecidableEq

/-- Source `PrivilegedSession::new`: classify an early exit (code 126 is the
dedicated cancellation error, anything else surfaces the stderr text), then
read and decode the handshake, initializing the request counter to 1. -/
def privilegedSessionNew (c : ChildObservation) : Except CoreError SessionInit := do
  match ← c.tryWaitFirst with
  | some exit_code =>
    let stderr_str := strTrim c.stderrText
    if exit_code = 126 then
      .error .AuthenticationCancelled
    else
      .error (.SessionCreation
        ("Daemon process exited early with code " ++ toString exit_code ++ ": " ++
         (if stderr_str = "" then "No error message available" else stderr_str)))
  | none =>
    if !c.stdoutAvail then
      .error (.SessionCreation "Daemon stdout not available for handshake")
    else
      match c.readHandshakeLine with
      | .error e =>
        .error (.SessionCreation ("Failed to read handshake from daemon: " ++ e))
      | .ok handshake_line =>
        if strTrim handshake_line = "" then do
          match ← c.tryWaitSecond with
          | some 126 => .error .AuthenticationCancelled
          | _ =>
            .error (.SessionCreation
              "Daemon sent empty handshake (process may have failed to start or authentication was cancelled)")
        else
          match c.handshakeParse with
          | .error e =>
            .error (.SessionCreation ("Failed to parse daemon handshake: " ++ e))
          | .ok handshake =>
            match hexDecode handshake.secret with
            | .error e =>
              .error (.SessionCreation ("Failed to decode daemon secret: " ++ e))
            | .ok secret => .ok ⟨secret, 1⟩

/-- Source `PrivilegeEscalation`. -/
inductive PrivilegeEscalation where
  | NoEscalation
  | Pkexec
  | Sudo
  | PkexecSession
  | SudoSession
deriving DecidableEq

/-- Source `ExecutionContext`, generic over the session and spawner handle types of
the trait objects it stores. -/
structure ExecutionContext (σ π : Type) where
  escalation : PrivilegeEscalation
  session : Option σ
  spawner : Option π

/-- The privileged operation an `ExecutionContext` dispatch resolves to; the
OS effect itself is carried out against this description. -/
inductive PrivilegedAction where
  | directRun (cmd : String) (args : List String)
  | wrappedRun (wrapper cmd : String) (args : List String)
  | sessionExec (cmd : String) (args : List String)
  | directWrite (path content : String)
  | teeWrite (wrapper path content : String)
  | sessionWrite (path content : String)
  | sessionCopy (src dst : String)
  | sessionMkdir (path : String)
deriving DecidableEq

/-- Source `ExecutionContext::ensure_session`: keep an existing session; in a session
escalation mode, spawn through the configured spawner (`spawnSession` models
`spawner.spawn()` followed by `PrivilegedSession::new`), and fail with the
configuration error when neither a session nor a spawner is present. -/
def ensure_session {σ π : Type} (spawnSession : π → Except CoreError σ)
    (ctx : ExecutionContext σ π) : Except CoreError (ExecutionContext σ π) :=
  if ctx.session.isSome then .ok ctx
  else
    match ctx.escalation with
    | .PkexecSession | .SudoSession =>
      match ctx.spawner with
      | some sp =>
        match spawnSession sp with
        | .ok s => .ok { ctx with session := some s }
        | .error e => .error e
      | none =>
        .error (.SessionCreation
          "Privileged session not available. Either set a session using set_session() or provide a spawner using set_spawner().")
    | _ => .ok ctx

/-- Source `ExecutionContext::run_privileged`: dispatch on the escalation strategy;
session modes first ensure a session exists. -/
def run_privileged {σ π : Type} (spawnSession : π → Except CoreError σ)
    (ctx : ExecutionContext σ π) (cmd : String) (args : List String) :
    Except CoreError (ExecutionContext σ π × PrivilegedAction) :=
  match ctx.escalation with
  | .NoEscalation => .ok (ctx, .directRun cmd args)
  | .Pkexec => .ok (ctx, .wrappedRun "pkexec" cmd args)
  | .Sudo => .ok (ctx, .wrappedRun "sudo" cmd args)
  | .PkexecSession | .SudoSession => do
    let ctx' ← ensure_session spawnSession ctx
    .ok (ctx', .sessionExec cmd args)

/-- The output of performing a resolved action: the process exit code (when
any) and captured stderr; `status.success()` is `code == some 0`. -/
structure ActionOutput where
  code : Option Int
  stderr : String

def outputSuccess (o : ActionOutput) : Bool := o.code == some 0

/-- Source `ExecutionContext::run_privileged_checked`: run, then classify a failure
exit — code 126 is the cancellation error, otherwise a command-exit error. -/
def run_privileged_checked {σ π : Type} (spawnSession : π → Except CoreError σ)
    (perform : PrivilegedAction → ActionOutput) (ctx : ExecutionContext σ π)
    (cmd : String) (args : List String) :
    Except CoreError (ExecutionContext σ π) := do
  let (ctx', act) ← run_privileged spawnSession ctx cmd args
  let output := perform act
  if !(outputSuccess output) then
    if output.code == some 126 then .error .AuthenticationCancelled
    else .error (.CommandExit cmd (output.code.getD (-1)) output.stderr)
  else .ok ctx'

/-- Source `ExecutionContext::write_file_privileged`. -/
def write_file_privileged {σ π : Type} (spawnSession : π → Except CoreError σ)
    (ctx : ExecutionContext σ π) (path content : String) :
    Except CoreError (ExecutionContext σ π × PrivilegedAction) :=
  match ctx.escalation with
  | .NoEscalation => .ok (ctx, .directWrite path content)
  | .Pkexec => .ok (ctx, .teeWrite "pkexec" path content)
  | .Sudo => .ok (ctx, .teeWrite "sudo" path content)
  | .PkexecSession | .SudoSession => do
    let ctx' ← ensure_session spawnSession ctx
    .ok (ctx', .sessionWrite path content)

/-- Source `ExecutionContext::copy_file_privileged`: session modes go through the
session; every other mode runs `cp src dst` through `run_privileged_checked`. -/
def copy_file_privileged {σ π : Type} (spawnSession : π → Except CoreError σ)
    (perform : PrivilegedAction → ActionOutput) (ctx : ExecutionContext σ π)
    (src dst : String) :
    Except CoreError (ExecutionContext σ π × Option PrivilegedAction) :=
  match ctx.escalation with
  | .PkexecSession | .SudoSession => do
    let ctx' ← ensure_session spawnSession ctx
    .ok (ctx', some (.sessionCopy src dst))
  | _ =>
    match run_privileged_checked spawnSession perform ctx "cp" [src, dst] with
    | .ok ctx' => .ok (ctx', none)
    | .error e => .error e

/-- Source `ExecutionContext::mkdir_privileged`: session modes go through the
session; every other mode runs `mkdir -p path` through
`run_privileged_checked`. -/
def mkdir_privileged {σ π : Type} (spawnSession : π → Except CoreError σ)
    (perform : PrivilegedAction → ActionOutput) (ctx : ExecutionContext σ π)
    (path : String) :
    Except CoreError (ExecutionContext σ π × Option PrivilegedAction) :=
  match ctx.escalation with
  | .PkexecSession | .SudoSession => do
    let ctx' ← ensure_session spawnSession ctx
    .ok (ctx', some (.sessionMkdir path))
  | _ =>
    match run_privileged_checked spawnSession perform ctx "mkdir" ["-p", path] with
    | .ok ctx' => .ok (ctx', none)
    | .error e => .error e

/-- An OS oracle on which every operation succeeds, for concrete daemon runs. -/
def okOracle : OsOracle where
  execCmd := fun _ _ => .ok ⟨some 0, "", ""⟩
  fsWrite := fun _ _ => .ok ()
  fsCopy := fun _ _ => .ok 0
  fsCreateDirAll := fun _ => .ok ()

instance {ε α : Type} [DecidableEq ε] [DecidableEq α] : DecidableEq (Except ε α) := fun x y =>
  match x, y with
  | .ok a, .ok b =>
    if h : a = b then isTrue (by rw [h]) else isFalse (fun hc => h (Except.ok.inj hc))
  | .error a, .error b =>
    if h : a = b then isTrue (by rw [h]) else isFalse (fun hc => h (Except.error.inj hc))
  | .ok _, .error _ => isFalse (fun hc => Except.noConfusion hc)
  | .error _, .ok _ => isFalse (fun hc => Except.noConfusion hc)

/-! ## Facts about the signing primitives -/

theorem cte_fold_self (l : List Nat) (acc : Nat) :
    ((l.zip l).foldl (fun acc p => acc ||| (p.1 ^^^ p.2)) acc) = acc := by
  induction l generalizing acc with
  | nil => rfl
  | cons x xs ih =>
    simp only [List.zip_cons_cons, List.foldl_cons, Nat.xor_self, Nat.or_zero]
    exact ih acc

/-- Reflexivity of the constant-time comparison. -/
theorem constant_time_eq_self (a : String) : constant_time_eq a a = true := by
  simp [constant_time_eq, cte_fold_self]

/-- Unequal byte lengths make the constant-time comparison false. -/
theorem constant_time_eq_len_ne (a b : String)
    (h : (strBytes a).length ≠ (strBytes b).length) :
    constant_time_eq a b = false := by
  simp [constant_time_eq, h]

/-- Verification of a freshly computed signature always succeeds. -/
theorem verify_compute_self (secret : List Nat) (id : Nat) (payload : String) :
    verify_hmac secret id payload (compute_hmac secret id payload) = true := by
  simp [verify_hmac, constant_time_eq_self]

theorem hash8Bytes_length (st : Hash8) : (hash8Bytes st).length = 32 := by
  simp [hash8Bytes, u32BeBytes]

theorem sha256_length (msg : List Nat) : (sha256 msg).length = 32 := by
  simp [sha256, hash8Bytes_length]

theorem hexDigit_ascii : ∀ n < 16, (hexDigit n).toNat < 128 := by decide

theorem utf8Bytes_ascii (n : Nat) (h : n < 128) : utf8Bytes n = [n] := by
  simp [utf8Bytes, h]

theorem strBytes_ascii (cs : List Char) (h : ∀ c ∈ cs, c.toNat < 128) :
    strBytes (String.mk cs) = cs.map Char.toNat := by
  induction cs with
  | nil => rfl
  | cons c cs ih =>
    have hc := h c (List.mem_cons_self c cs)
    have hcs := fun x hx => h x (List.mem_cons_of_mem c hx)
    simp only [strBytes, List.map_cons, List.flatten_cons, utf8Bytes_ascii c.toNat hc]
    have := ih hcs
    simp only [strBytes] at this
    simp [this]

theorem byteHexChars_ascii (b : Nat) : ∀ c ∈ byteHexChars b, c.toNat < 128 := by
  intro c hc
  have h1 : b / 16 % 16 < 16 := Nat.mod_lt _ (by omega)
  have h2 : b % 16 < 16 := Nat.mod_lt _ (by omega)
  simp only [byteHexChars, List.mem_cons, List.not_mem_nil, or_false] at hc
  rcases hc with h | h <;> subst h
  · exact hexDigit_ascii _ h1
  · exact hexDigit_ascii _ h2

theorem flatten_byteHexChars_length (bs : List Nat) :
    ((bs.map byteHexChars).flatten).length = 2 * bs.length := by
  induction bs with
  | nil => rfl
  | cons b bs ih =>
    simp only [List.map_cons, List.flatten_cons, List.length_append, byteHexChars,
      List.length_cons, List.length_nil]
    rw [ih]
    omega

/-- The hex encoding of `n` bytes is an ASCII string of `2 * n` UTF-8 bytes. -/
theorem strBytes_hexEncode_length (bs : List Nat) :
    (strBytes (hexEncode bs)).length = 2 * bs.length := by
  have hascii : ∀ c ∈ (bs.map byteHexChars).flatten, c.toNat < 128 := by
    intro c hc
    simp only [List.mem_flatten, List.mem_map] at hc
    obtain ⟨l, ⟨b, _, rfl⟩, hcl⟩ := hc
    exact byteHexChars_ascii b c hcl
  rw [hexEncode, strBytes_ascii _ hascii, List.length_map,
    flatten_byteHexChars_length]

/-- The computed signature always hex-encodes a 32-byte digest: 64 ASCII bytes,
for a secret of every length. -/
theorem compute_hmac_length (secret : List Nat) (id : Nat) (payload : String) :
    (strBytes (compute_hmac secret id payload)).length = 64 := by
  rw [compute_hmac, strBytes_hexEncode_length, hmacSha256]
  simp [sha256_length]

/-! ## Facts about the daemon loop -/

/-- A request whose id does not exceed the anti-replay counter is rejected
with the replay error and the state is unchanged, for every signature. -/
theorem daemonStep_replay (os : OsOracle) (st : DaemonState) (req : DaemonRequest)
    (h : req.id ≤ st.lastId) :
    daemonStep os st (.parsed req) = (st, .next (.response (error_response req.id
      ("Replay attack detected: ID " ++ toString req.id ++
       " <= last ID " ++ toString st.lastId)))) := by
  simp [daemonStep, h]

/-- A fresh id with a failing signature is rejected with the authentication
error and the state is unchanged. -/
theorem daemonStep_badsig (os : OsOracle) (st : DaemonState) (req : DaemonRequest)
    (hlt : st.lastId < req.id)
    (hv : verify_hmac st.secret req.id (renderJson (encodeCommand req.cmd)) req.hmac = false) :
    daemonStep os st (.parsed req) =
      (st, .next (.response (error_response req.id "HMAC authentication failed"))) := by
  simp [daemonStep, Nat.not_le.mpr hlt, hv]

/-- A fresh id signed with the secret held by the daemon, over the serialized
command carried by the request, passes both checks: the counter advances to
the id and the command is dispatched. -/
theorem daemonStep_accept (os : OsOracle) (st : DaemonState) (id : Nat)
    (cmd : DaemonCommand) (hlt : st.lastId < id) :
    daemonStep os st (.parsed (create_signed_request st.secret id cmd)) =
      (⟨st.secret, id⟩,
       match cmd with
       | .shutdown => .stop
       | .exec program args => .next (.response (handle_exec os id program args))
       | .writeFile path content => .next (.response (handle_write_file os id path content))
       | .copyFile src dst => .next (.response (handle_copy_file os id src dst))
       | .mkdirP path => .next (.response (handle_mkdir_p os id path))) := by
  cases cmd <;>
    simp [daemonStep, create_signed_request, Nat.not_le.mpr hlt, verify_compute_self]

/-! ## String facts -/

theorem str_append_data_ne (a b : String) (h : a.data ≠ []) : (a ++ b).data ≠ [] := by
  rw [String.data_append]
  intro hc
  exact h (List.append_eq_nil.mp hc).1

theorem str_ne_empty_of_data (a : String) (h : a.data ≠ []) : a ≠ "" := by
  intro hc
  rw [hc] at h
  exact h rfl

theorem except_bind_ok {ε α β : Type} (a : α) (f : α → Except ε β) :
    (Except.ok a >>= f) = f a := rfl

theorem except_bind_error {ε α β : Type} (e : ε) (f : α → Except ε β) :
    ((Except.error e : Except ε α) >>= f) = Except.error e := rfl

theorem strListOf_map (args : List String) :
    strListOf (args.map Json.str) = some args := by
  induction args with
  | nil => rfl
  | cons a as ih => simp [strListOf, ih, asStr]

/-! ## Claims -/

/-- C4: for all (secret, id, payload), verifying the signature produced by the
signing primitive on the same inputs succeeds:
`verify_hmac(secret, id, payload, compute_hmac(secret, id, payload)) = true`. -/
theorem c4_verify_of_compute (secret : List Nat) (id : Nat) (payload : String) :
    verify_hmac secret id payload (compute_hmac secret id payload) = true :=
  verify_compute_self secret id payload

/-- C1: a parseable request whose id does not exceed `last_accepted_id` is
answered with a failure response carrying the replay-attack message, and the
state — in particular `last_accepted_id` — is unchanged; this holds for every
signature value (the replay check runs before the signature check, so even a
validly signed replay is rejected). On the id sequence [1,2,2,3] the second 2
is rejected with the replay error while 1, 2, 3 are accepted, and on [1,3,2]
the trailing 2 is rejected, each without changing accepted state. -/
theorem c1_replay_rejected :
    (∀ (os : OsOracle) (st : DaemonState) (req : DaemonRequest),
       req.id ≤ st.lastId →
       daemonStep os st (.parsed req) = (st, .next (.response (error_response req.id
         ("Replay attack detected: ID " ++ toString req.id ++
          " <= last ID " ++ toString st.lastId))))) ∧
    (∀ s : List Nat, runDaemon okOracle ⟨s, 0⟩
        [.parsed (create_signed_request s 1 (.mkdirP "/n")),
         .parsed (create_signed_request s 2 (.mkdirP "/n")),
         .parsed (create_signed_request s 2 (.mkdirP "/n")),
         .parsed (create_signed_request s 3 (.mkdirP "/n"))] =
      (⟨s, 3⟩,
       [.response (success_response 1), .response (success_response 2),
        .response (error_response 2
          ("Replay attack detected: ID " ++ toString (2 : Nat) ++
           " <= last ID " ++ toString (2 : Nat))),
        .response (success_response 3)])) ∧
    (∀ s : List Nat, runDaemon okOracle ⟨s, 0⟩
        [.parsed (create_signed_request s 1 (.mkdirP "/n")),
         .parsed (create_signed_request s 3 (.mkdirP "/n")),
         .parsed (create_signed_request s 2 (.mkdirP "/n"))] =
      (⟨s, 3⟩,
       [.response (success_response 1), .response (success_response 3),
        .response (error_response 2
          ("Replay attack detected: ID " ++ toString (2 : Nat) ++
           " <= last ID " ++ toString (3 : Nat)))])) := by
  refine ⟨daemonStep_replay, fun s => ?_, fun s => ?_⟩ <;>
    simp [runDaemon, daemonStep, create_signed_request, verify_compute_self,
      handle_mkdir_p, okOracle, success_response]

/-- Witness for C1: a replayed id 2 carrying the correct signature for its own
payload is still rejected as a replay with the state unchanged. -/
theorem c1_replay_rejected_witness :
    daemonStep okOracle ⟨[], 2⟩
      (.parsed ⟨2, compute_hmac [] 2 (renderJson (encodeCommand .shutdown)), .shutdown⟩) =
      (⟨[], 2⟩, .next (.response (error_response 2
        ("Replay attack detected: ID " ++ toString (2 : Nat) ++
         " <= last ID " ++ toString (2 : Nat))))) :=
  c1_replay_rejected.1 okOracle ⟨[], 2⟩ _ (by decide)

/-- C2: a parseable request with a fresh id whose signature does not verify is
answered with the authentication-failure response and `last_accepted_id` is
unchanged; a correctly signed request at that same id is then accepted (the
counter advances to it). -/
theorem c2_bad_signature_rejected :
    (∀ (os : OsOracle) (st : DaemonState) (req : DaemonRequest),
       st.lastId < req.id →
       verify_hmac st.secret req.id (renderJson (encodeCommand req.cmd)) req.hmac = false →
       daemonStep os st (.parsed req) =
         (st, .next (.response (error_response req.id "HMAC authentication failed")))) ∧
    (∀ (os : OsOracle) (st : DaemonState) (id : Nat) (cmd : DaemonCommand),
       st.lastId < id →
       (daemonStep os st (.parsed (create_signed_request st.secret id cmd))).1 =
         ⟨st.secret, id⟩) := by
  refine ⟨daemonStep_badsig, fun os st id cmd hlt => ?_⟩
  rw [daemonStep_accept os st id cmd hlt]

/-- Witness for C2: a request at id 1 with a bogus signature is rejected with
the authentication error and the state stays at 0; the correctly signed
request at the same id 1 is then accepted, advancing the counter to 1. -/
theorem c2_bad_signature_rejected_witness :
    daemonStep okOracle ⟨[], 0⟩ (.parsed ⟨1, "x", .shutdown⟩) =
      (⟨[], 0⟩, .next (.response (error_response 1 "HMAC authentication failed"))) ∧
    (daemonStep okOracle ⟨[], 0⟩ (.parsed (create_signed_request [] 1 .shutdown))).1 =
      ⟨[], 1⟩ :=
  ⟨c2_bad_signature_rejected.1 okOracle ⟨[], 0⟩ ⟨1, "x", .shutdown⟩ (by decide)
     (constant_time_eq_len_ne _ _ (by rw [compute_hmac_length]; decide)),
   c2_bad_signature_rejected.2 okOracle ⟨[], 0⟩ 1 .shutdown (by decide)⟩

/-- C6: the daemon loop is never terminated by a malformed input line: a blank
line produces no output and leaves the state unchanged, an unparseable line
produces only a stderr diagnostic (no response) and leaves the state
unchanged, and any run of such lines passes through the loop — the remaining
inputs are processed exactly as they would have been without it. -/
theorem c6_malformed_input_resilience :
    (∀ (os : OsOracle) (st : DaemonState),
       daemonStep os st .blank = (st, .next .silent)) ∧
    (∀ (os : OsOracle) (st : DaemonState),
       daemonStep os st .malformed = (st, .next .stderrLog)) ∧
    (∀ (os : OsOracle) (st : DaemonState) (junk rest : List InputLine),
       (∀ i ∈ junk, i = InputLine.blank ∨ i = InputLine.malformed) →
       runDaemon os st (junk ++ rest) =
         ((runDaemon os st rest).1,
          (junk.map fun i =>
            match i with
            | .blank => StepOut.silent
            | _ => StepOut.stderrLog) ++ (runDaemon os st rest).2)) := by
  refine ⟨fun _ _ => rfl, fun _ _ => rfl, fun os st junk rest hjunk => ?_⟩
  induction junk generalizing st with
  | nil => simp
  | cons i junk ih =>
    have hi := hjunk i (List.mem_cons_self i junk)
    have hjunk' := fun x hx => hjunk x (List.mem_cons_of_mem i hx)
    rcases hi with rfl | rfl <;>
      simp [runDaemon, daemonStep, ih st hjunk']

/-- Witness for C6: a blank line followed by a garbage line is passed over,
and a legitimate signed request behind them is still served. -/
theorem c6_malformed_input_resilience_witness :
    runDaemon okOracle ⟨[], 0⟩
      ([.blank, .malformed] ++ [.parsed (create_signed_request [] 1 (.mkdirP "/n"))]) =
      ((runDaemon okOracle ⟨[], 0⟩ [.parsed (create_signed_request [] 1 (.mkdirP "/n"))]).1,
       [.silent, .stderrLog] ++
         (runDaemon okOracle ⟨[], 0⟩ [.parsed (create_signed_request [] 1 (.mkdirP "/n"))]).2) :=
  c6_malformed_input_resilience.2.2 okOracle ⟨[], 0⟩ [.blank, .malformed] _ (by decide)

/-- C9: every failure response the daemon itself builds goes through
`error_response`, which sets success false, exit code -1 (not the serde
default 0), empty stdout and stderr, and a non-empty error message — for the
replay rejection, the authentication rejection, and failed
WriteFile/CopyFile/MkdirP operations. -/
theorem c9_failure_response_shape :
    (∀ (id : Nat) (msg : String), error_response id msg = ⟨id, false, -1, "", "", some msg⟩) ∧
    (∀ (os : OsOracle) (id : Nat) (path content e : String),
       os.fsWrite path content = .error e →
       handle_write_file os id path content =
         error_response id ("Failed to write file: " ++ e) ∧
       "Failed to write file: " ++ e ≠ "") ∧
    (∀ (os : OsOracle) (id : Nat) (src dst e : String),
       os.fsCopy src dst = .error e →
       handle_copy_file os id src dst = error_response id ("Failed to copy file: " ++ e) ∧
       "Failed to copy file: " ++ e ≠ "") ∧
    (∀ (os : OsOracle) (id : Nat) (path e : String),
       os.fsCreateDirAll path = .error e →
       handle_mkdir_p os id path =
         error_response id ("Failed to create directory: " ++ e) ∧
       "Failed to create directory: " ++ e ≠ "") ∧
    (∀ (os : OsOracle) (st : DaemonState) (req : DaemonRequest),
       req.id ≤ st.lastId →
       ∃ m, daemonStep os st (.parsed req) =
         (st, .next (.response (error_response req.id m))) ∧ m ≠ "") ∧
    (∀ (os : OsOracle) (st : DaemonState) (req : DaemonRequest),
       st.lastId < req.id →
       verify_hmac st.secret req.id (renderJson (encodeCommand req.cmd)) req.hmac = false →
       ∃ m, daemonStep os st (.parsed req) =
         (st, .next (.response (error_response req.id m))) ∧ m ≠ "") := by
  refine ⟨fun id msg => rfl, ?_, ?_, ?_, ?_, ?_⟩
  · intro os id path content e he
    refine ⟨by simp [handle_write_file, he], ?_⟩
    exact str_ne_empty_of_data _ (str_append_data_ne _ _ (by decide))
  · intro os id src dst e he
    refine ⟨by simp [handle_copy_file, he], ?_⟩
    exact str_ne_empty_of_data _ (str_append_data_ne _ _ (by decide))
  · intro os id path e he
    refine ⟨by simp [handle_mkdir_p, he], ?_⟩
    exact str_ne_empty_of_data _ (str_append_data_ne _ _ (by decide))
  · intro os st req h
    refine ⟨_, daemonStep_replay os st req h, ?_⟩
    exact str_ne_empty_of_data _
      (str_append_data_ne _ _ (str_append_data_ne _ _ (str_append_data_ne _ _ (by decide))))
  · intro os st req hlt hv
    exact ⟨_, daemonStep_badsig os st req hlt hv, by decide⟩

/-- Witness for C9: a failed file write at id 7 produces the full
`error_response` shape with exit code -1 and a non-empty message. -/
theorem c9_failure_response_shape_witness :
    handle_write_file ⟨fun _ _ => .ok ⟨some 0, "", ""⟩, fun _ _ => .error "disk full",
        fun _ _ => .ok 0, fun _ => .ok ()⟩ 7 "/etc/fstab" "x" =
      error_response 7 ("Failed to write file: " ++ "disk full") ∧
    ("Failed to write file: " ++ "disk full" : String) ≠ "" :=
  c9_failure_response_shape.2.1
    ⟨fun _ _ => .ok ⟨some 0, "", ""⟩, fun _ _ => .error "disk full",
     fun _ _ => .ok 0, fun _ => .ok ()⟩ 7 "/etc/fstab" "x" "disk full" rfl

/-- C5: an execution context in a session escalation mode (PkexecSession or
SudoSession) with neither a spawner nor a pre-set session fails every
privileged operation — run, run checked, write file, copy file, make
directory — with the descriptive configuration error; none of them resolves
to an action, so nothing executes without escalation. -/
theorem c5_session_mode_config_error {σ π : Type}
    (spawnSession : π → Except CoreError σ)
    (perform : PrivilegedAction → ActionOutput) (esc : PrivilegeEscalation)
    (hesc : esc = .PkexecSession ∨ esc = .SudoSession)
    (cmd : String) (args : List String) (path content src dst : String) :
    ensure_session spawnSession (⟨esc, none, none⟩ : ExecutionContext σ π) =
      .error (.SessionCreation
        "Privileged session not available. Either set a session using set_session() or provide a spawner using set_spawner().") ∧
    run_privileged spawnSession (⟨esc, none, none⟩ : ExecutionContext σ π) cmd args =
      .error (.SessionCreation
        "Privileged session not available. Either set a session using set_session() or provide a spawner using set_spawner().") ∧
    run_privileged_checked spawnSession perform (⟨esc, none, none⟩ : ExecutionContext σ π)
        cmd args =
      .error (.SessionCreation
        "Privileged session not available. Either set a session using set_session() or provide a spawner using set_spawner().") ∧
    write_file_privileged spawnSession (⟨esc, none, none⟩ : ExecutionContext σ π)
        path content =
      .error (.SessionCreation
        "Privileged session not available. Either set a session using set_session() or provide a spawner using set_spawner().") ∧
    copy_file_privileged spawnSession perform (⟨esc, none, none⟩ : ExecutionContext σ π)
        src dst =
      .error (.SessionCreation
        "Privileged session not available. Either set a session using set_session() or provide a spawner using set_spawner().") ∧
    mkdir_privileged spawnSession perform (⟨esc, none, none⟩ : ExecutionContext σ π) path =
      .error (.SessionCreation
        "Privileged session not available. Either set a session using set_session() or provide a spawner using set_spawner().") := by
  rcases hesc with rfl | rfl <;>
    simp [ensure_session, run_privileged, run_privileged_checked,
      write_file_privileged, copy_file_privileged, mkdir_privileged,
      except_bind_ok, except_bind_error]

/-- Witness for C5: the pkexec-session context with no spawner and no session
fails a concrete privileged run with the configuration error. -/
theorem c5_session_mode_config_error_witness :
    run_privileged (fun _ => .error .AuthenticationCancelled)
        (⟨.PkexecSession, none, none⟩ : ExecutionContext Unit Unit) "mount" ["/dev/sda1"] =
      .error (.SessionCreation
        "Privileged session not available. Either set a session using set_session() or provide a spawner using set_spawner().") :=
  (c5_session_mode_config_error (fun _ => .error .AuthenticationCancelled)
    (fun _ => ⟨some 0, ""⟩) .PkexecSession (Or.inl rfl)
    "mount" ["/dev/sda1"] "" "" "" "").2.1

/-- C7: when the spawned daemon process has already exited before the
handshake is read, session construction classifies the failure by exit
status: status 126 is reported as the dedicated authorization-cancelled error
kind, and every other status is reported as a session-creation error whose
message carries the captured stderr text (or a placeholder when stderr was
empty). -/
theorem c7_early_exit_classification :
    (∀ c : ChildObservation, c.tryWaitFirst = .ok (some 126) →
       privilegedSessionNew c = .error .AuthenticationCancelled) ∧
    (∀ (c : ChildObservation) (code : Int),
       c.tryWaitFirst = .ok (some code) → code ≠ 126 →
       privilegedSessionNew c = .error (.SessionCreation
         ("Daemon process exited early with code " ++ toString code ++ ": " ++
          (if strTrim c.stderrText = "" then "No error message available"
           else strTrim c.stderrText)))) := by
  constructor
  · intro c h
    simp [privilegedSessionNew, h, except_bind_ok, except_bind_error]
  · intro c code h hne
    simp [privilegedSessionNew, h, hne, except_bind_ok, except_bind_error]

/-- Witness for C7: exit status 126 yields the cancellation error; exit
status 1 with stderr text "boom" yields a session-creation error carrying
"boom". -/
theorem c7_early_exit_classification_witness :
    privilegedSessionNew ⟨.ok (some 126), "", true, .ok "", .ok none, .error "eof"⟩ =
      .error .AuthenticationCancelled ∧
    privilegedSessionNew ⟨.ok (some 1), "boom", true, .ok "", .ok none, .error "eof"⟩ =
      .error (.SessionCreation
        ("Daemon process exited early with code " ++ toString (1 : Int) ++ ": " ++
         (if strTrim "boom" = "" then "No error message available" else strTrim "boom"))) :=
  ⟨c7_early_exit_classification.1 _ rfl,
   c7_early_exit_classification.2 _ 1 rfl (by decide)⟩

/-- C10: no component outside generation enforces the 32-byte secret length.
`compute_hmac` (and so `verify_hmac`) is total for a secret of every byte
length — it always yields a 64-character hex signature, and signatures round
trip even for the empty secret — and session construction accepts any
handshake secret whose hex encoding decodes, whatever its length, returning a
working session with that secret and request counter 1. -/
theorem c10_secret_length_unenforced :
    (∀ (secret : List Nat) (id : Nat) (payload : String),
       (strBytes (compute_hmac secret id payload)).length = 64) ∧
    (∀ (id : Nat) (payload : String),
       verify_hmac [] id payload (compute_hmac [] id payload) = true) ∧
    (∀ (c : ChildObservation) (line sec : String) (bytes : List Nat),
       c.tryWaitFirst = .ok none → c.stdoutAvail = true →
       c.readHandshakeLine = .ok line → strTrim line ≠ "" →
       c.handshakeParse = .ok ⟨sec⟩ → hexDecode sec = .ok bytes →
       privilegedSessionNew c = .ok ⟨bytes, 1⟩) := by
  refine ⟨compute_hmac_length, fun id payload => verify_compute_self [] id payload, ?_⟩
  intro c line sec bytes h1 h2 h3 h4 h5 h6
  simp [privilegedSessionNew, h1, h2, h3, h4, h5, h6, except_bind_ok, except_bind_error]

/-- Witness for C10: a handshake carrying the 1-byte secret "ab" (hex) is
accepted, establishing a session whose secret has length 1, not 32. -/
theorem c10_secret_length_unenforced_witness :
    privilegedSessionNew ⟨.ok none, "", true, .ok "h", .ok none, .ok ⟨"ab"⟩⟩ =
      .ok ⟨[171], 1⟩ ∧ ([171] : List Nat).length ≠ 32 :=
  ⟨c10_secret_length_unenforced.2.2 ⟨.ok none, "", true, .ok "h", .ok none, .ok ⟨"ab"⟩⟩
     "h" "ab" [171] rfl rfl rfl (by decide) rfl (by decide),
   by decide⟩

/-- C3 counterexample: the claim says every daemon failure response whose
error text is an authentication error in the sense of the spec — a signature
mismatch *or a replayed id rejection* — is surfaced as the dedicated
"security verification failed" error. The daemon replay rejection text is
"Replay attack detected: ID .. <= last ID ..", which contains neither
"authentication" nor "HMAC", so `send_request` returns the response instead
of raising the dedicated error. -/
theorem c3_replay_not_flagged_counterexample :
    send_request_auth_check (error_response 2 "Replay attack detected: ID 2 <= last ID 3") =
      .ok (error_response 2 "Replay attack detected: ID 2 <= last ID 3") := by
  decide

/-- C3 (amended): a failure response is surfaced as the dedicated "security
verification failed" error exactly when its error text contains
"authentication" or "HMAC" — which covers the daemon signature-mismatch
rejection, but not its replayed-id rejection; the daemon authentication
failure message is so surfaced. -/
theorem c3_auth_error_classification :
    (∀ (resp : DaemonResponse) (err : String), resp.error = some err →
       (send_request_auth_check resp =
          .error (.SessionCommunication ("Security verification failed: " ++ err)) ↔
        resp.success = false ∧
          (strContains err "authentication" || strContains err "HMAC") = true)) ∧
    (∀ id : Nat,
       send_request_auth_check (error_response id "HMAC authentication failed") =
         .error (.SessionCommunication
           ("Security verification failed: " ++ "HMAC authentication failed"))) := by
  constructor
  · intro resp err h
    simp only [send_request_auth_check, h]
    cases hsucc : resp.success with
    | true => simp
    | false =>
      cases hx : (strContains err "authentication" || strContains err "HMAC") with
      | true => simp
      | false => simp [hx]
  · intro id
    have hc : strContains "HMAC authentication failed" "authentication" = true := by decide
    simp [send_request_auth_check, error_response, hc]

/-- Witness for the amended C3: the classification equivalence instantiated at
the daemon authentication-failure response. -/
theorem c3_auth_error_classification_witness :
    (send_request_auth_check (error_response 3 "HMAC authentication failed") =
       .error (.SessionCommunication
         ("Security verification failed: " ++ "HMAC authentication failed")) ↔
     (error_response 3 "HMAC authentication failed").success = false ∧
       (strContains "HMAC authentication failed" "authentication" ||
        strContains "HMAC authentication failed" "HMAC") = true) :=
  c3_auth_error_classification.1 (error_response 3 "HMAC authentication failed")
    "HMAC authentication failed" rfl

/-- C8: the serde data binding for the protocol messages round-trips — decoding
the encoding of any request (for each of the five command kinds) or any
response yields the original value — and the command is carried by a `cmd`
discriminator whose emitted and accepted values are exactly `exec`,
`write_file`, `copy_file`, `mkdir_p`, `shutdown`. -/
theorem c8_roundtrip :
    (∀ r : DaemonRequest, decodeRequest (encodeRequest r) = some r) ∧
    (∀ resp : DaemonResponse, decodeResponse (encodeResponse resp) = some resp) ∧
    (∀ c : DaemonCommand, ∃ t, jLookup (commandFields c) "cmd" = some (.str t) ∧
       (t = "exec" ∨ t = "write_file" ∨ t = "copy_file" ∨ t = "mkdir_p" ∨
        t = "shutdown")) ∧
    (∀ (fs : List (String × Json)) (c : DaemonCommand), decodeCommand fs = some c →
       ∃ t, jLookup fs "cmd" = some (.str t) ∧
         (t = "exec" ∨ t = "write_file" ∨ t = "copy_file" ∨ t = "mkdir_p" ∨
          t = "shutdown")) := by
  refine ⟨?_, ?_, ?_, ?_⟩
  · rintro ⟨id, hmac, cmd⟩
    cases cmd <;>
      simp [encodeRequest, decodeRequest, decodeCommand, commandFields, jLookup,
        asNat, asStr, asStrList, strListOf_map]
  · rintro ⟨id, success, ec, so, se, er⟩
    cases er <;>
      simp [encodeResponse, decodeResponse, jLookup, asNat, asStr, asBool, asInt]
  · intro c
    cases c with
    | exec program args => exact ⟨"exec", rfl, Or.inl rfl⟩
    | writeFile path content => exact ⟨"write_file", rfl, Or.inr (Or.inl rfl)⟩
    | copyFile src dst => exact ⟨"copy_file", rfl, Or.inr (Or.inr (Or.inl rfl))⟩
    | mkdirP path => exact ⟨"mkdir_p", rfl, Or.inr (Or.inr (Or.inr (Or.inl rfl)))⟩
    | shutdown => exact ⟨"shutdown", rfl, Or.inr (Or.inr (Or.inr (Or.inr rfl)))⟩
  · intro fs c h
    simp only [decodeCommand] at h
    cases hj : jLookup fs "cmd" with
    | none => rw [hj] at h; simp at h
    | some j =>
      rw [hj] at h
      cases j with
      | str t =>
        refine ⟨t, rfl, ?_⟩
        simp only [asStr, Option.bind_eq_bind, Option.some_bind] at h
        split at h <;> simp_all
      | null => simp [asStr] at h
      | bool b => simp [asStr] at h
      | num n => simp [asStr] at h
      | arr xs => simp [asStr] at h
      | obj gs => simp [asStr] at h

/-- Witness for C8: the decoder accepts the `shutdown` tag, whose value is one
of the five discriminator values. -/
theorem c8_roundtrip_witness :
    ∃ t, jLookup [("cmd", Json.str "shutdown")] "cmd" = some (.str t) ∧
      (t = "exec" ∨ t = "write_file" ∨ t = "copy_file" ∨ t = "mkdir_p" ∨
       t = "shutdown") :=
  c8_roundtrip.2.2.2 [("cmd", .str "shutdown")] .shutdown (by decide)

end SteamosMount
